import Mathlib

/-!
Shallow embedding of the rent-platform client (nhathuybs/rent-platform).

The repository contains several revisions of the same files, separated by
document markers.  `src/services/api.ts` holds three revisions of the
generic fetch wrapper `request`; `src/App.tsx` (and the unnamed parts)
hold revisions of the session context (`AuthProvider`), the route guards
and the page components.  Each revision that a claim touches is embedded
as its own Lean function, suffixed by revision:

* `request_v1` — earliest `request` (api.ts lines 15-44): special-cases
  401 with a forced logout-and-redirect.
* `request_v2` — the fullest, latest `request` (api.ts lines 76-94, the
  revision carrying the `admin` sub-namespace): uniform non-2xx handling
  and the 204 / zero content-length empty-body rule.
* `request_v3` — the remaining `request` revision (api.ts lines 156-184):
  same error path as v2 but only a 204 empty-body check.

The HTTP response is modelled by the fields the code inspects: status,
status text, the `content-length` header, and the outcome of
`response.json()` (`none` when the body is not valid JSON).
-/

namespace RentPlatform

/-- A JSON value, as produced by `response.json()`. -/
inductive JsonValue where
  | null
  | bool (b : Bool)
  | num (n : Int)
  | str (s : String)
  | arr (elems : List JsonValue)
  | obj (fields : List (String × JsonValue))

/-- JavaScript truthiness of a JSON value (used by the `x || fallback`
idiom in the error paths). -/
def truthy : JsonValue → Bool
  | .null => false
  | .bool b => b
  | .num n => n != 0
  | .str s => s != ""
  | .arr _ => true
  | .obj _ => true

mutual

/-- JavaScript `String(v)` conversion for the JSON values above
(`new Error(x)` coerces its argument to a string). -/
def jsString : JsonValue → String
  | .null => "null"
  | .bool b => cond b "true" "false"
  | .num n => toString n
  | .str s => s
  | .arr elems => jsArrayString elems
  | .obj _ => "[object Object]"

/-- `Array.prototype.toString` joins elements with commas, rendering a
null element as the empty string. -/
def jsArrayString : List JsonValue → String
  | [] => ""
  | [JsonValue.null] => ""
  | [v] => jsString v
  | JsonValue.null :: rest => "," ++ jsArrayString rest
  | v :: rest => jsString v ++ "," ++ jsArrayString rest

end

/-- Field lookup in a parsed JSON object; with duplicate keys the last
occurrence wins, as in `JSON.parse`. -/
def lookupField : List (String × JsonValue) → String → Option JsonValue
  | [], _ => none
  | (k, v) :: rest, key =>
    match lookupField rest key with
    | some w => some w
    | none => if k = key then some v else none

/-- JavaScript property access `v.key`: a `TypeError` on `null`,
`undefined` (modelled as `none`) on primitives and missing keys. -/
def jsGet : JsonValue → String → Except Unit (Option JsonValue)
  | .null, _ => .error ()
  | .obj fields, key => .ok (lookupField fields key)
  | _, _ => .ok none

/-- The `x || fallback` idiom applied to a possibly-undefined property
value, coerced to the error-message string. -/
def jsOrElseStr (x : Option JsonValue) (fallback : String) : String :=
  match x with
  | some v => if truthy v then jsString v else fallback
  | none => fallback

/-- The parts of a `fetch` `Response` that `request` inspects.
`jsonBody` is the outcome of `response.json()`: `none` when the body is
not valid JSON (the parse promise rejects). -/
structure HttpResponse where
  status : Nat
  statusText : String
  contentLength : Option String
  jsonBody : Option JsonValue

/-- `Response.ok`: status in the inclusive range 200-299. -/
def HttpResponse.ok (r : HttpResponse) : Bool :=
  200 ≤ r.status && r.status ≤ 299

/-- How a `request` call settles. -/
inductive RequestResult where
  | success (data : JsonValue)
  | error (message : String)
  | parseError
  | typeError

/-- The settled result of a `request` call together with its observable side effects:
whether `localStorage.removeItem("token")` ran, whether
`window.location.hash` was set to the login route, and whether
`response.json()` was invoked at all. -/
structure RequestOutcome where
  result : RequestResult
  tokenRemoved : Bool
  redirectedToLogin : Bool
  bodyRead : Bool

/-- Earliest `request` revision (api.ts lines 15-44): a 401 removes the
persisted token, redirects to `#/login` and throws `"Unauthorized"`
without reading the body; otherwise the body is parsed unconditionally
and a non-ok status throws `data.detail || "API Error"`. -/
def request_v1 (resp : HttpResponse) : RequestOutcome :=
  if resp.status = 401 then
    { result := .error "Unauthorized", tokenRemoved := true,
      redirectedToLogin := true, bodyRead := false }
  else
    match resp.jsonBody with
    | none =>
      { result := .parseError, tokenRemoved := false,
        redirectedToLogin := false, bodyRead := true }
    | some data =>
      if resp.ok then
        { result := .success data, tokenRemoved := false,
          redirectedToLogin := false, bodyRead := true }
      else
        match jsGet data "detail" with
        | .error _ =>
          { result := .typeError, tokenRemoved := false,
            redirectedToLogin := false, bodyRead := true }
        | .ok d =>
          { result := .error (jsOrElseStr d "API Error"),
            tokenRemoved := false, redirectedToLogin := false,
            bodyRead := true }

/-- Latest `request` revision (api.ts lines 76-94): on non-ok,
`errorBody = await response.json().catch(() => ({ detail:
response.statusText }))` and `throw new Error` of `errorBody.detail` with the generic
unknown-error fallback; on ok, a 204 status or a `content-length` of
`"0"` resolves to `{}` without reading the body, else the body is
parsed. -/
def request_v2 (resp : HttpResponse) : RequestOutcome :=
  if !resp.ok then
    let errorBody : JsonValue :=
      match resp.jsonBody with
      | some b => b
      | none => .obj [("detail", .str resp.statusText)]
    match jsGet errorBody "detail" with
    | .error _ =>
      { result := .typeError, tokenRemoved := false,
        redirectedToLogin := false, bodyRead := true }
    | .ok d =>
      { result := .error (jsOrElseStr d "An unknown error occurred"),
        tokenRemoved := false, redirectedToLogin := false,
        bodyRead := true }
  else if resp.status = 204 || resp.contentLength = some "0" then
    { result := .success (.obj []), tokenRemoved := false,
      redirectedToLogin := false, bodyRead := false }
  else
    match resp.jsonBody with
    | none =>
      { result := .parseError, tokenRemoved := false,
        redirectedToLogin := false, bodyRead := true }
    | some b =>
      { result := .success b, tokenRemoved := false,
        redirectedToLogin := false, bodyRead := true }

/-- Remaining `request` revision (api.ts lines 156-184): identical error
path to `request_v2`, but the empty-body rule checks only for a 204
status. -/
def request_v3 (resp : HttpResponse) : RequestOutcome :=
  if !resp.ok then
    let errorBody : JsonValue :=
      match resp.jsonBody with
      | some b => b
      | none => .obj [("detail", .str resp.statusText)]
    match jsGet errorBody "detail" with
    | .error _ =>
      { result := .typeError, tokenRemoved := false,
        redirectedToLogin := false, bodyRead := true }
    | .ok d =>
      { result := .error (jsOrElseStr d "An unknown error occurred"),
        tokenRemoved := false, redirectedToLogin := false,
        bodyRead := true }
  else if resp.status = 204 then
    { result := .success (.obj []), tokenRemoved := false,
      redirectedToLogin := false, bodyRead := false }
  else
    match resp.jsonBody with
    | none =>
      { result := .parseError, tokenRemoved := false,
        redirectedToLogin := false, bodyRead := true }
    | some b =>
      { result := .success b, tokenRemoved := false,
        redirectedToLogin := false, bodyRead := true }

/-!
Data model (src/unnamed/part_002, later revision): `User`, `Order`,
`Role` as the role string-literal union.  `Partial<User>` is embedded as
`UserUpdate`, each property optionally present; the already-optional
`orders` property doubles the option (absent key vs. present key whose
value may itself be undefined).
-/

/-- The role union of the user and admin string literals. -/
inductive Role where
  | user
  | admin
deriving DecidableEq

/-- Order record (src/unnamed/part_002, later revision). -/
structure Order where
  id : Int
  product_name : String
  price : Int
  account_info : String
  password_info : String
  otp_info : Option String
  purchase_time : String
  user_email : Option String
  expires_at : Option String
  is_expired : Bool

/-- User record (src/unnamed/part_002, later revision). -/
structure User where
  id : Int
  email : String
  role : Role
  balance : Int
  orders : Option (List Order)

/-- `Partial<User>`: every property optionally present. -/
structure UserUpdate where
  id : Option Int := none
  email : Option String := none
  role : Option Role := none
  balance : Option Int := none
  orders : Option (Option (List Order)) := none

/-- The spread `{ ...currentUser, ...updatedUserData }`: properties
present in the update override those of the current user. -/
def mergeUser (u : User) (upd : UserUpdate) : User :=
  { id := upd.id.getD u.id
    email := upd.email.getD u.email
    role := upd.role.getD u.role
    balance := upd.balance.getD u.balance
    orders := match upd.orders with
      | some v => v
      | none => u.orders }

/-!
Session context (`AuthProvider`).  The state gathers the in-memory
`user`/`token`/`loading` React state with the persisted
`localStorage` token (`storedToken`).  The mutators are embedded from
the latest App.tsx revision (lines 546-617); `login_v1` and
`fetchUserOnMountPrev` embed the variants the claims also cite.
-/

/-- The state of the session context: in-memory user, token and loading flag,
plus the token persisted in local storage. -/
structure SessionState where
  user : Option User
  token : Option String
  loading : Bool
  storedToken : Option String

/-- The provider state on a fresh mount: no user, no in-memory token,
loading (App.tsx lines 547-549); storage holds whatever was persisted. -/
def freshState (stored : Option String) : SessionState :=
  { user := none, token := none, loading := true, storedToken := stored }

/-- First-ever visit: nothing persisted. -/
def initialState : SessionState := freshState none

/-- `logout` (App.tsx lines 563-567): remove the persisted token, clear
in-memory token and user. -/
def logout (s : SessionState) : SessionState :=
  { s with storedToken := none, token := none, user := none }

/-- `login(newToken, userData)` (App.tsx lines 569-573): persist the
token and set both in-memory fields from the arguments.  The boolean
reports whether `fetchUser` was invoked; this revision never performs a
fetch. -/
def login (s : SessionState) (newToken : String) (userData : User) :
    SessionState × Bool :=
  ({ s with storedToken := some newToken, token := some newToken,
            user := some userData }, false)

/-- The earliest revision of `login(newToken, userData?)` (App.tsx lines
29-34): with a user provided it behaves like `login`; without one it
falls back to a `fetchUser` round trip (reported by the boolean). -/
def login_v1 (s : SessionState) (newToken : String)
    (userData : Option User) : SessionState × Bool :=
  match userData with
  | some u =>
    ({ s with storedToken := some newToken, token := some newToken,
              user := some u }, false)
  | none =>
    ({ s with storedToken := some newToken, token := some newToken }, true)

/-- `updateUser(updatedUserData)` (App.tsx lines 575-577): shallow-merge
into the current user when one exists, keep `null` otherwise. -/
def updateUser (s : SessionState) (upd : UserUpdate) : SessionState :=
  { s with user := match s.user with
      | some u => some (mergeUser u upd)
      | none => none }

/-- The result of the mount step: the resulting state and whether the
who-am-I operation (`api.getMe`) was called. -/
structure MountOutcome where
  state : SessionState
  getMeCalled : Bool

/-- `fetchUserOnMount` of the latest App.tsx revision (lines 579-598):
first `checkApiStatus` (its outcome is the `healthOk` argument); on
failure only the loading flag is cleared.  Otherwise, with a persisted
token present, call `getMe` (outcome `getMeResult`): success sets the
user and adopts the persisted token, failure runs `logout`. -/
def fetchUserOnMount (s : SessionState) (healthOk : Bool)
    (getMeResult : Except Unit User) : MountOutcome :=
  if !healthOk then
    { state := { s with loading := false }, getMeCalled := false }
  else
    match s.storedToken with
    | some existingToken =>
      match getMeResult with
      | .ok u =>
        { state :=
            { s with
              user := some u, token := some existingToken, loading := false }
          getMeCalled := true }
      | .error _ =>
        { state := { logout s with loading := false }, getMeCalled := true }
    | none =>
      { state := { s with loading := false }, getMeCalled := false }

/-- `fetchUserOnMount` of the earlier revisions (src/unnamed/part_004
lines 44-59, and App.tsx lines 36-49 up to state naming): no health
check. -/
def fetchUserOnMountPrev (s : SessionState)
    (getMeResult : Except Unit User) : MountOutcome :=
  match s.storedToken with
  | some existingToken =>
    match getMeResult with
    | .ok u =>
      { state :=
          { s with
            user := some u, token := some existingToken, loading := false }
        getMeCalled := true }
    | .error _ =>
      { state := { logout s with loading := false }, getMeCalled := true }
  | none =>
    { state := { s with loading := false }, getMeCalled := false }

/-!
Route guards (latest App.tsx revision lines 1442-1446, earliest revision
lines 473-477).
-/

/-- What a guard renders. -/
inductive RenderResult where
  | redirect (path : String)
  | children
deriving DecidableEq

/-- `AdminRoute` (latest revision): `if the user role is not the admin literal, return
<Navigate to="/dashboard" replace />; return children`. -/
def adminRoute (user : Option User) : RenderResult :=
  match user with
  | some u => if u.role = Role.admin then .children else .redirect "/dashboard"
  | none => .redirect "/dashboard"

/-- `AdminRoute` (earliest revision, App.tsx lines 473-477): same guard,
redirecting to `"/"`, the default authenticated screen of that revision. -/
def adminRoute_v1 (user : Option User) : RenderResult :=
  match user with
  | some u => if u.role = Role.admin then .children else .redirect "/"
  | none => .redirect "/"

/-!
Dashboard purchase action.  Each `handleBuy` revision is embedded as the
trace of observable effects it performs, parameterised by the outcomes
of the confirmation dialog and of the awaited network calls.  Dialog and
alert texts are elided; an alert is recorded as `alertShown`.
-/

/-- Observable effects of the purchase action. -/
inductive BuyEffect where
  | confirmDialog
  | buyRequest (id : Int)
  | alertShown
  | getMeRequest
  | setBalance
  | refetchProducts
deriving DecidableEq

/-- `handleBuy` of the latest App.tsx Dashboard (lines 710-720): confirm;
buy; on success alert, re-fetch the user via `getMe` and merge the fresh
balance into the session; any failure alerts.  The product list is not
re-fetched. -/
def handleBuy (pid : Int) (confirmed buyOk getMeOk : Bool) :
    List BuyEffect :=
  if !confirmed then [.confirmDialog]
  else if !buyOk then [.confirmDialog, .buyRequest pid, .alertShown]
  else if !getMeOk then
    [.confirmDialog, .buyRequest pid, .alertShown, .getMeRequest,
     .alertShown]
  else
    [.confirmDialog, .buyRequest pid, .alertShown, .getMeRequest,
     .setBalance]

/-- `handleBuy` of the earliest App.tsx Dashboard (lines 231-240):
confirm; buy; on success alert and re-fetch the product list.  The
balance is not re-fetched. -/
def handleBuy_v1 (pid : Int) (confirmed buyOk : Bool) : List BuyEffect :=
  if !confirmed then [.confirmDialog]
  else if !buyOk then [.confirmDialog, .buyRequest pid, .alertShown]
  else [.confirmDialog, .buyRequest pid, .alertShown, .refetchProducts]

/-- `handleBuy` of the intermediate Dashboard revision
(src/unnamed/part_003 lines 149-158): confirm; buy; on success alert,
re-fetch the balance via `getMe`, then re-fetch the product list. -/
def handleBuy_mid (pid : Int) (confirmed buyOk getMeOk : Bool) :
    List BuyEffect :=
  if !confirmed then [.confirmDialog]
  else if !buyOk then [.confirmDialog, .buyRequest pid, .alertShown]
  else if !getMeOk then
    [.confirmDialog, .buyRequest pid, .alertShown, .getMeRequest,
     .alertShown]
  else
    [.confirmDialog, .buyRequest pid, .alertShown, .getMeRequest,
     .setBalance, .refetchProducts]

/-!
Session state machine for the reachability invariant: the actions the
spec names (login, logout, updateUser, mount hydration), each applied
through the embedded mutators of the latest App.tsx revision.
-/

/-- A session-context action, carrying the environment outcomes the
mount step depends on. -/
inductive SessionAct where
  | loginAct (newToken : String) (userData : User)
  | logoutAct
  | updateAct (upd : UserUpdate)
  | mountAct (healthOk : Bool) (getMeResult : Except Unit User)

/-- One action applied to a session state. -/
def sessionStep (s : SessionState) : SessionAct → SessionState
  | .loginAct t u => (login s t u).1
  | .logoutAct => logout s
  | .updateAct upd => updateUser s upd
  | .mountAct h r => (fetchUserOnMount s h r).state

/-- States reachable from the initial unauthenticated state. -/
inductive Reachable : SessionState → Prop where
  | init : Reachable initialState
  | next {s : SessionState} (h : Reachable s) (a : SessionAct) :
      Reachable (sessionStep s a)

/-!
Concrete values used by witnesses and counterexamples.
-/

/-- A concrete administrator. -/
def adminUser : User :=
  { id := 1, email := "admin@example.com", role := Role.admin,
    balance := 0, orders := none }

/-- A concrete non-admin user. -/
def plainUser : User :=
  { id := 2, email := "user@example.com", role := Role.user,
    balance := 100, orders := none }

/-- A fresh provider state holding a persisted token. -/
def mountState : SessionState := freshState (some "tok")

/-- A 204 response with an empty body. -/
def resp204 : HttpResponse :=
  { status := 204, statusText := "No Content", contentLength := none,
    jsonBody := none }

/-- A 400 response whose JSON body has no detail field. -/
def respNoDetail : HttpResponse :=
  { status := 400, statusText := "Bad Request", contentLength := none,
    jsonBody := some (.obj []) }

/-- A 403 response whose JSON body carries a detail message. -/
def respDetail : HttpResponse :=
  { status := 403, statusText := "Forbidden", contentLength := none,
    jsonBody := some (.obj [("detail", .str "Insufficient balance")]) }

/-- A 502 response whose body is not valid JSON. -/
def respNoJson : HttpResponse :=
  { status := 502, statusText := "Bad Gateway", contentLength := none,
    jsonBody := none }

/-- A 401 response whose JSON body carries a detail message. -/
def resp401 : HttpResponse :=
  { status := 401, statusText := "Unauthorized", contentLength := none,
    jsonBody := some (.obj [("detail", .str "Invalid token")]) }

/-- A sample update touching only the balance. -/
def balanceUpd : UserUpdate := { balance := some 500 }

/-!
Claims.
-/

/-- C2: for every call to `login(token, user)`, the session becomes
authenticated with exactly the provided user object and token, the token
is persisted, and no fetch is issued; likewise for the earliest-revision
`login` when a user object is passed. -/
theorem login_sets_session_synchronously (s : SessionState) (t : String)
    (u : User) :
    (login s t u).1.user = some u ∧
    (login s t u).1.token = some t ∧
    (login s t u).1.storedToken = some t ∧
    (login s t u).2 = false ∧
    (login_v1 s t (some u)).1.user = some u ∧
    (login_v1 s t (some u)).1.token = some t ∧
    (login_v1 s t (some u)).1.storedToken = some t ∧
    (login_v1 s t (some u)).2 = false :=
  ⟨rfl, rfl, rfl, rfl, rfl, rfl, rfl, rfl⟩

/-- C3: the admin-only guard redirects an authenticated non-admin user
to the default authenticated screen of its revision and renders its
children for an authenticated admin. -/
theorem adminRoute_guards_by_role (u : User) :
    (u.role ≠ Role.admin →
      adminRoute (some u) = RenderResult.redirect "/dashboard" ∧
      adminRoute_v1 (some u) = RenderResult.redirect "/") ∧
    (u.role = Role.admin →
      adminRoute (some u) = RenderResult.children ∧
      adminRoute_v1 (some u) = RenderResult.children) := by
  constructor <;> intro h <;> simp [adminRoute, adminRoute_v1, h]

/-- Witness for C3 at a concrete admin and a concrete non-admin. -/
theorem adminRoute_guards_by_role_witness :
    adminRoute (some adminUser) = RenderResult.children ∧
    adminRoute (some plainUser) = RenderResult.redirect "/dashboard" :=
  ⟨((adminRoute_guards_by_role adminUser).2 rfl).1,
   ((adminRoute_guards_by_role plainUser).1 (by decide)).1⟩

/-- C4: for every response with a success status and an empty body (204
status or zero content-length), the latest `request` resolves to the
empty object without attempting to read the body. -/
theorem request_empty_body_resolves (resp : HttpResponse)
    (hok : resp.ok = true)
    (hempty : resp.status = 204 ∨ resp.contentLength = some "0") :
    (request_v2 resp).result = RequestResult.success (JsonValue.obj []) ∧
    (request_v2 resp).bodyRead = false := by
  rcases hempty with h | h <;> simp [request_v2, hok, h]

/-- Witness for C4 at a concrete 204 response. -/
theorem request_empty_body_resolves_witness :
    (request_v2 resp204).result = RequestResult.success (JsonValue.obj []) ∧
    (request_v2 resp204).bodyRead = false :=
  request_empty_body_resolves resp204 (by decide) (Or.inl rfl)

/-- C6: `logout` clears the persisted token and the in-memory user and
token, and a subsequent fresh mount from the resulting storage ends
unauthenticated without calling who-am-I, whatever the health check and
who-am-I outcomes would be. -/
theorem logout_clears_session (s : SessionState) (healthOk : Bool)
    (r : Except Unit User) :
    (logout s).storedToken = none ∧
    (logout s).user = none ∧
    (logout s).token = none ∧
    (fetchUserOnMount (freshState (logout s).storedToken) healthOk r).state.user
      = none ∧
    (fetchUserOnMount (freshState (logout s).storedToken) healthOk r).state.token
      = none ∧
    (fetchUserOnMount (freshState (logout s).storedToken) healthOk r).getMeCalled
      = false := by
  cases healthOk <;>
    simp [logout, freshState, fetchUserOnMount]

/-- C7 fails as stated: in the latest Dashboard revision a confirmed,
successful purchase re-fetches the balance but never the product list
(and in the earliest revision, the product list but never the
balance). -/
theorem handleBuy_no_product_refetch :
    BuyEffect.refetchProducts ∉ handleBuy 1 true true true ∧
    BuyEffect.getMeRequest ∈ handleBuy 1 true true true ∧
    BuyEffect.setBalance ∈ handleBuy 1 true true true ∧
    BuyEffect.refetchProducts ∈ handleBuy_v1 1 true true ∧
    BuyEffect.getMeRequest ∉ handleBuy_v1 1 true true := by
  decide

/-- C7 amended: every Dashboard revision first requires confirmation
(declining issues no buy request); after a confirmed successful buy the
latest revision re-fetches only the balance, the earliest only the
product list, and the intermediate revision both. -/
theorem handleBuy_traces (pid : Int) (b g : Bool) :
    handleBuy pid false b g = [BuyEffect.confirmDialog] ∧
    handleBuy_v1 pid false b = [BuyEffect.confirmDialog] ∧
    handleBuy_mid pid false b g = [BuyEffect.confirmDialog] ∧
    handleBuy pid true true true =
      [BuyEffect.confirmDialog, BuyEffect.buyRequest pid,
       BuyEffect.alertShown, BuyEffect.getMeRequest,
       BuyEffect.setBalance] ∧
    handleBuy_v1 pid true true =
      [BuyEffect.confirmDialog, BuyEffect.buyRequest pid,
       BuyEffect.alertShown, BuyEffect.refetchProducts] ∧
    handleBuy_mid pid true true true =
      [BuyEffect.confirmDialog, BuyEffect.buyRequest pid,
       BuyEffect.alertShown, BuyEffect.getMeRequest,
       BuyEffect.setBalance, BuyEffect.refetchProducts] :=
  ⟨rfl, rfl, rfl, rfl, rfl, rfl⟩

/-- C1 fails as stated: on a non-2xx response whose JSON body has no
detail field, the latest `request` throws the generic message, not the
status text. -/
theorem request_error_message_not_statusText :
    respNoDetail.ok = false ∧
    respNoDetail.statusText = "Bad Request" ∧
    (request_v2 respNoDetail).result =
      RequestResult.error "An unknown error occurred" ∧
    (request_v2 respNoDetail).result ≠
      RequestResult.error "Bad Request" := by
  refine ⟨rfl, rfl, rfl, ?_⟩
  intro h
  have h2 : RequestResult.error "An unknown error occurred" =
      RequestResult.error "Bad Request" := h
  have h3 := RequestResult.error.inj h2
  exact absurd h3 (by decide)

/-- C1 amended: on a non-2xx response the latest `request` throws the
detail field of the JSON error body when present and non-empty; when the
body is not valid JSON it falls back to the status text; when the body
parses but carries no detail field it throws the generic unknown-error
message instead of the status text. -/
theorem request_error_message (resp : HttpResponse)
    (hok : resp.ok = false) :
    (∀ fields msg, resp.jsonBody = some (JsonValue.obj fields) →
      lookupField fields "detail" = some (JsonValue.str msg) →
      msg ≠ "" →
      (request_v2 resp).result = RequestResult.error msg ∧
      (request_v2 resp).tokenRemoved = false) ∧
    (resp.jsonBody = none → resp.statusText ≠ "" →
      (request_v2 resp).result = RequestResult.error resp.statusText) ∧
    (∀ fields, resp.jsonBody = some (JsonValue.obj fields) →
      lookupField fields "detail" = none →
      (request_v2 resp).result =
        RequestResult.error "An unknown error occurred") := by
  refine ⟨?_, ?_, ?_⟩
  · intro fields msg hbody hlook hmsg
    simp [request_v2, hok, hbody, jsGet, hlook, jsOrElseStr, truthy,
      jsString, hmsg]
  · intro hbody hst
    simp [request_v2, hok, hbody, jsGet, lookupField, jsOrElseStr,
      truthy, jsString, hst]
  · intro fields hbody hlook
    simp [request_v2, hok, hbody, jsGet, hlook, jsOrElseStr]

/-- Witness for the amended C1: a detail message is surfaced verbatim,
and a non-JSON body falls back to the status text. -/
theorem request_error_message_witness :
    (request_v2 respDetail).result =
      RequestResult.error "Insufficient balance" ∧
    (request_v2 respNoJson).result =
      RequestResult.error "Bad Gateway" :=
  ⟨((request_error_message respDetail (by decide)).1
      [("detail", .str "Insufficient balance")] "Insufficient balance"
      rfl rfl (by decide)).1,
   (request_error_message respNoJson (by decide)).2.1 rfl (by decide)⟩

/-- On any non-null JSON value, property access does not raise. -/
lemma jsGet_of_ne_null (v : JsonValue) (key : String)
    (h : v ≠ JsonValue.null) : ∃ d, jsGet v key = Except.ok d := by
  cases v <;> simp [jsGet] at h ⊢

/-- The error body the later `request` revisions work with on a non-ok
response. -/
def errorBodyOf (resp : HttpResponse) : JsonValue :=
  match resp.jsonBody with
  | some b => b
  | none => JsonValue.obj [("detail", JsonValue.str resp.statusText)]

/-- The whole non-ok branch of the latest `request`, factored out. -/
def notOkOutcome (resp : HttpResponse) : RequestOutcome :=
  match jsGet (errorBodyOf resp) "detail" with
  | .error _ =>
    { result := .typeError, tokenRemoved := false,
      redirectedToLogin := false, bodyRead := true }
  | .ok d =>
    { result := .error (jsOrElseStr d "An unknown error occurred"),
      tokenRemoved := false, redirectedToLogin := false,
      bodyRead := true }

lemma request_v2_notOk (resp : HttpResponse) (hok : resp.ok = false) :
    request_v2 resp = notOkOutcome resp := by
  simp [request_v2, hok, notOkOutcome, errorBodyOf]

lemma request_v3_notOk (resp : HttpResponse) (hok : resp.ok = false) :
    request_v3 resp = notOkOutcome resp := by
  simp [request_v3, hok, notOkOutcome, errorBodyOf]

lemma notOkOutcome_effects (resp : HttpResponse) :
    (notOkOutcome resp).tokenRemoved = false ∧
    (notOkOutcome resp).redirectedToLogin = false ∧
    (notOkOutcome resp).bodyRead = true := by
  unfold notOkOutcome
  cases jsGet (errorBodyOf resp) "detail" <;> exact ⟨rfl, rfl, rfl⟩

/-- C8: the revisions diverge on 401.  The earliest `request` removes
the persisted token, redirects to the login route and throws without
reading the body; the later revisions leave the token alone, do not
redirect, read and surface the parsed error, and treat a 401 exactly
like any other non-2xx status. -/
theorem request_revisions_diverge_on_401 (resp : HttpResponse)
    (h401 : resp.status = 401)
    (hbody : resp.jsonBody ≠ some JsonValue.null) :
    request_v1 resp =
      { result := RequestResult.error "Unauthorized",
        tokenRemoved := true, redirectedToLogin := true,
        bodyRead := false } ∧
    (request_v2 resp).tokenRemoved = false ∧
    (request_v2 resp).redirectedToLogin = false ∧
    (request_v2 resp).bodyRead = true ∧
    (request_v3 resp).tokenRemoved = false ∧
    (request_v3 resp).redirectedToLogin = false ∧
    (∃ m, (request_v2 resp).result = RequestResult.error m) ∧
    (∀ fields msg, resp.jsonBody = some (JsonValue.obj fields) →
      lookupField fields "detail" = some (JsonValue.str msg) →
      msg ≠ "" →
      (request_v2 resp).result = RequestResult.error msg) ∧
    request_v2 { resp with status := 400 } = request_v2 resp ∧
    request_v3 resp = request_v2 resp := by
  have hok : resp.ok = false := by
    simp [HttpResponse.ok, h401]
  have hok400 : HttpResponse.ok { resp with status := 400 } = false := by
    simp [HttpResponse.ok]
  have hv1 : request_v1 resp =
      { result := RequestResult.error "Unauthorized",
        tokenRemoved := true, redirectedToLogin := true,
        bodyRead := false } := by
    simp [request_v1, h401]
  have hv2 := request_v2_notOk resp hok
  have hv3 := request_v3_notOk resp hok
  have heff := notOkOutcome_effects resp
  refine ⟨hv1, ?_, ?_, ?_, ?_, ?_, ?_, ?_, ?_, ?_⟩
  · rw [hv2]; exact heff.1
  · rw [hv2]; exact heff.2.1
  · rw [hv2]; exact heff.2.2
  · rw [hv3]; exact heff.1
  · rw [hv3]; exact heff.2.1
  · -- a parsed error message is thrown
    rw [hv2]
    rcases hb : resp.jsonBody with _ | b
    · refine ⟨jsOrElseStr (some (JsonValue.str resp.statusText))
        "An unknown error occurred", ?_⟩
      simp [notOkOutcome, errorBodyOf, hb, jsGet, lookupField]
    · have hbn : b ≠ JsonValue.null := by
        intro hcontra; rw [hb, hcontra] at hbody; exact hbody rfl
      rcases jsGet_of_ne_null b "detail" hbn with ⟨d, hd⟩
      refine ⟨jsOrElseStr d "An unknown error occurred", ?_⟩
      simp [notOkOutcome, errorBodyOf, hb, hd]
  · intro fields msg hbodyEq hlook hmsg
    rw [hv2]
    simp [notOkOutcome, errorBodyOf, hbodyEq, jsGet, hlook, jsOrElseStr,
      truthy, jsString, hmsg]
  · rw [hv2, request_v2_notOk _ hok400]
    rfl
  · rw [hv2, hv3]

/-- Witness for C8 at a concrete 401 response carrying a detail. -/
theorem request_revisions_diverge_on_401_witness :
    (request_v1 resp401).tokenRemoved = true ∧
    (request_v2 resp401).tokenRemoved = false ∧
    (request_v2 resp401).result = RequestResult.error "Invalid token" :=
  ⟨congrArg RequestOutcome.tokenRemoved
     (request_revisions_diverge_on_401 resp401 rfl
       (fun h => by injection h with h2; exact JsonValue.noConfusion h2)).1,
   (request_revisions_diverge_on_401 resp401 rfl
     (fun h => by injection h with h2; exact JsonValue.noConfusion h2)).2.1,
   (request_revisions_diverge_on_401 resp401 rfl
     (fun h => by injection h with h2; exact JsonValue.noConfusion h2)).2.2.2.2.2.2.2.1
     [("detail", .str "Invalid token")] "Invalid token" rfl rfl
     (by decide)⟩

/-- C5 fails as stated: in the latest revision the mount step is gated
on a health check, so with a persisted token present but the health
check failing, who-am-I is never called and the persisted token is left
in place. -/
theorem mount_gated_on_health_check :
    mountState.storedToken = some "tok" ∧
    (fetchUserOnMount mountState false (Except.error ())).getMeCalled
      = false ∧
    (fetchUserOnMount mountState false (Except.error ())).state.storedToken
      = some "tok" ∧
    (fetchUserOnMount mountState false (Except.error ())).state.user
      = none :=
  ⟨rfl, rfl, rfl, rfl⟩

/-- C5 amended: on mount with a persisted token present, the latest
revision calls who-am-I provided the initial health check succeeds —
success authenticates with the returned user and the persisted token,
failure removes the persisted token and leaves the session
unauthenticated; if the health check fails, only the loading flag is
cleared.  The earlier revision, which has no health check, satisfies the
original claim unconditionally. -/
theorem mount_hydration (s : SessionState) (tk : String) (u : User)
    (h : s.storedToken = some tk) :
    ((fetchUserOnMount s false (Except.error ())).getMeCalled = false ∧
      (fetchUserOnMount s false (Except.error ())).state =
        { s with loading := false }) ∧
    ((fetchUserOnMount s true (Except.ok u)).getMeCalled = true ∧
      (fetchUserOnMount s true (Except.ok u)).state =
        { s with user := some u, token := some tk, loading := false }) ∧
    ((fetchUserOnMount s true (Except.error ())).getMeCalled = true ∧
      (fetchUserOnMount s true (Except.error ())).state =
        { s with user := none, token := none, storedToken := none,
                 loading := false }) ∧
    ((fetchUserOnMountPrev s (Except.ok u)).getMeCalled = true ∧
      (fetchUserOnMountPrev s (Except.ok u)).state =
        { s with user := some u, token := some tk, loading := false }) ∧
    ((fetchUserOnMountPrev s (Except.error ())).getMeCalled = true ∧
      (fetchUserOnMountPrev s (Except.error ())).state =
        { s with user := none, token := none, storedToken := none,
                 loading := false }) := by
  simp [fetchUserOnMount, fetchUserOnMountPrev, logout, h]

/-- Witness for the amended C5 at a concrete state and user. -/
theorem mount_hydration_witness :
    (fetchUserOnMount mountState true (Except.ok plainUser)).state =
      { mountState with user := some plainUser, token := some "tok",
                        loading := false } ∧
    (fetchUserOnMount mountState true
        (Except.error () : Except Unit User)).state.storedToken = none :=
  ⟨(mount_hydration mountState "tok" plainUser rfl).2.1.2,
   congrArg (fun st => st.storedToken)
     (mount_hydration mountState "tok" plainUser rfl).2.2.1.2⟩

/-- C9: in every session state reachable from the initial state through
login, logout, updateUser and mount hydration, a present in-memory user
implies a present in-memory token. -/
theorem session_user_implies_token (s : SessionState) (h : Reachable s) :
    s.user.isSome = true → s.token.isSome = true := by
  induction h with
  | init => intro hcontra; simp [initialState, freshState] at hcontra
  | @next s' hr a ih =>
    cases a with
    | loginAct t u => intro _; simp [sessionStep, login]
    | logoutAct => intro hcontra; simp [sessionStep, logout] at hcontra
    | updateAct upd =>
      intro hu
      rcases hs : s'.user with _ | u
      · simp [sessionStep, updateUser, hs] at hu
      · have : s'.token.isSome = true := ih (by simp [hs])
        simpa [sessionStep, updateUser] using this
    | mountAct healthOk r =>
      intro hu
      cases healthOk with
      | false =>
        have : s'.user.isSome = true := by
          simpa [sessionStep, fetchUserOnMount] using hu
        simpa [sessionStep, fetchUserOnMount] using ih this
      | true =>
        rcases hst : s'.storedToken with _ | tk
        · have : s'.user.isSome = true := by
            simpa [sessionStep, fetchUserOnMount, hst] using hu
          simpa [sessionStep, fetchUserOnMount, hst] using ih this
        · cases r with
          | ok u => simp [sessionStep, fetchUserOnMount, hst]
          | error e =>
            simp [sessionStep, fetchUserOnMount, hst, logout] at hu

/-- Witness for C9 at the state reached by a single login. -/
theorem session_user_implies_token_witness :
    (sessionStep initialState
      (SessionAct.loginAct "tok" plainUser)).token.isSome = true :=
  session_user_implies_token _
    (Reachable.next Reachable.init (SessionAct.loginAct "tok" plainUser))
    rfl

/-- C10: updateUser leaves the in-memory token, the persisted token and
the loading flag untouched, leaves the whole state unchanged when no
user is logged in, shallow-merges into the current user otherwise, and
the merge changes exactly the fields the update supplies. -/
theorem updateUser_frame (s : SessionState) (upd : UserUpdate) :
    (s.user = none → updateUser s upd = s) ∧
    (updateUser s upd).token = s.token ∧
    (updateUser s upd).storedToken = s.storedToken ∧
    (updateUser s upd).loading = s.loading ∧
    (∀ u, s.user = some u →
      (updateUser s upd).user = some (mergeUser u upd)) ∧
    (∀ u : User,
      (upd.id = none → (mergeUser u upd).id = u.id) ∧
      (upd.email = none → (mergeUser u upd).email = u.email) ∧
      (upd.role = none → (mergeUser u upd).role = u.role) ∧
      (upd.balance = none → (mergeUser u upd).balance = u.balance) ∧
      (upd.orders = none → (mergeUser u upd).orders = u.orders) ∧
      (∀ v, upd.balance = some v → (mergeUser u upd).balance = v)) := by
  refine ⟨?_, rfl, rfl, rfl, ?_, ?_⟩
  · intro h
    cases s with
    | mk user token loading storedToken =>
      cases h
      simp [updateUser]
  · intro u h
    simp [updateUser, h]
  · intro u
    refine ⟨fun h => ?_, fun h => ?_, fun h => ?_, fun h => ?_,
      fun h => ?_, fun v h => ?_⟩ <;> simp [mergeUser, h]

/-- Witness for C10: a balance-only update on a logged-in session, and a
no-op on a session without a user. -/
theorem updateUser_frame_witness :
    updateUser initialState balanceUpd = initialState ∧
    (updateUser (login initialState "tok" plainUser).1 balanceUpd).user =
      some (mergeUser plainUser balanceUpd) ∧
    (mergeUser plainUser balanceUpd).email = plainUser.email ∧
    (mergeUser plainUser balanceUpd).balance = 500 :=
  ⟨(updateUser_frame initialState balanceUpd).1 rfl,
   (updateUser_frame (login initialState "tok" plainUser).1
      balanceUpd).2.2.2.2.1 plainUser rfl,
   ((updateUser_frame (login initialState "tok" plainUser).1
      balanceUpd).2.2.2.2.2 plainUser).2.1 rfl,
   ((updateUser_frame (login initialState "tok" plainUser).1
      balanceUpd).2.2.2.2.2 plainUser).2.2.2.2.2 500 rfl⟩

end RentPlatform
